import Mathlib

/-!
Verification of the nautobot-app-ssot repository slice: the Invoke task
runner (`tasks.py`), the schema migration
(`nautobot_ssot/migrations/0003_alter_synclogentry_textfields.py`) and the
app descriptor (`nautobot_ssot/__init__.py`).

Modelling conventions:
* Python values passed to `is_truthy` are modelled by `PyVal` (bools,
  strings and ints, covering the cases the task runner exercises);
  `str()` coercion is `pyStrOf` and `.lower()` is `String.toLower`.
* A task is modelled as a function producing the ordered list of external
  invocations it performs (`Invocation`) together with an optional raised
  error (`PyError`): the pair records exactly which external commands were
  started before the task either returned or raised.  A `docker compose`
  call is recorded with the command string handed to the `docker_compose`
  helper and the optional trailing service argument.  The health-polling
  loop of `_await_healthy_container` (repeated `docker inspect` plus
  sleeping) is abstracted to the single marker `awaitContainer`, and the
  final `docker stop` of `destroy` to `dockerStop`; real-time polling is
  outside the model.
* Filesystem access (`Path(...).is_file()`) is a parameter of `destroy`,
  and `Path(...).absolute()` is the identity on the given name.
* The Django migration is modelled as an update of a schema, a map from
  (model name, field name) to a field definition.
-/

namespace NautobotSSOT

/-! ## `is_truthy` (tasks.py lines 23-43) -/

/-- Python values reaching `is_truthy`: booleans, strings and ints. -/
inductive PyVal where
  | pybool (b : Bool)
  | pystr (s : String)
  | pyint (n : Int)
  deriving DecidableEq

/-- Python `str()` on a `PyVal`. -/
def pyStrOf : PyVal → String
  | PyVal.pybool true => "True"
  | PyVal.pybool false => "False"
  | PyVal.pystr s => s
  | PyVal.pyint n => toString n

/-- Python `str.lower()`, applied character by character.  (Defined by a
structural map over the character list so that it evaluates inside the
kernel; on the ASCII literals `is_truthy` compares against it agrees with
`String.toLower`.) -/
def strLower (s : String) : String := ⟨s.data.map Char.toLower⟩

/-- The true literals of `is_truthy`. -/
def trueStrs : List String := ["y", "yes", "t", "true", "on", "1"]

/-- The false literals of `is_truthy`. -/
def falseStrs : List String := ["n", "no", "f", "false", "off", "0"]

/-- `is_truthy` from tasks.py: booleans are returned unchanged; any other
value is coerced with `str()`, lowercased and matched against the true and
false literal lists; anything else raises `ValueError`. -/
def is_truthy (arg : PyVal) : Except String Bool :=
  match arg with
  | PyVal.pybool b => Except.ok b
  | _ =>
    let val := strLower (pyStrOf arg)
    if val ∈ trueStrs then Except.ok true
    else if val ∈ falseStrs then Except.ok false
    else Except.error ("Invalid truthy value: `" ++ pyStrOf arg ++ "`")

/-! ## Task-runner configuration and invocation traces -/

/-- The slice of the Invoke configuration the modelled tasks read. -/
structure Config where
  compose_files : List String
  deriving DecidableEq

/-- The compose files configured by `namespace.configure` in tasks.py. -/
def defaultConfig : Config :=
  ⟨["docker-compose.base.yml", "docker-compose.redis.yml",
    "docker-compose.postgres.yml", "docker-compose.dev.yml"]⟩

/-- `_is_compose_included` from tasks.py. -/
def is_compose_included (cfg : Config) (name : String) : Bool :=
  cfg.compose_files.contains ("docker-compose." ++ name ++ ".yml")

/-- One external invocation performed by a task. -/
inductive Invocation where
  | compose (cmd : String) (service : Option String)
  | awaitContainer
  | dockerStop
  deriving DecidableEq

/-- A raised Python exception. -/
inductive PyError where
  | valueError (msg : String)
  deriving DecidableEq

/-- A task run: invocations performed in order, and the error raised if
the task did not return normally. -/
abbrev TaskResult := List Invocation × Option PyError

/-- The invocations of `start(context, service)`:
`docker_compose(context, "up --detach", service=service)`. -/
def startInvs (service : String) : List Invocation :=
  [Invocation.compose "up --detach" (some service)]

/-- The invocations of `_await_healthy_service`: `docker_compose` with
`ps -q -- <service>` followed by the container health-poll loop. -/
def awaitHealthyServiceInvs (service : String) : List Invocation :=
  [Invocation.compose ("ps -q -- " ++ service) none, Invocation.awaitContainer]

/-! ## `dbshell` (tasks.py lines 437-480) -/

/-- The MySQL dialect tokens of `dbshell`. -/
def dbshellMysqlTokens (db_name : String) : List String :=
  ["mysql", "--user=$MYSQL_USER", "--password=$MYSQL_PASSWORD",
   "--database=" ++ (if db_name = "" then "$MYSQL_DATABASE" else db_name)]

/-- The PostgreSQL dialect tokens of `dbshell`. -/
def dbshellPostgresTokens (db_name : String) : List String :=
  ["psql", "--username=$POSTGRES_USER",
   "--dbname=" ++ (if db_name = "" then "$POSTGRES_DB" else db_name)]

/-- The command string `dbshell` hands to `docker_compose`, assembled
around the chosen dialect tokens exactly as the source joins its token
list with spaces. -/
def dbshellCommand (dialect : List String) (input_file output_file query : String) : String :=
  String.intercalate " "
    (["exec",
      if query ≠ "" then "--env=_SQL_QUERY" else "",
      "-- db sh -c \x27"]
     ++ dialect ++
     ["\x27",
      if query ≠ "" then "<<<\"$_SQL_QUERY\"" else "",
      if input_file ≠ "" then "< \x27" ++ input_file ++ "\x27" else "",
      if output_file ≠ "" then "> \x27" ++ output_file ++ "\x27" else ""])

/-- `dbshell` from tasks.py: two argument guards, backend branch on the
compose files, then a single `docker_compose` invocation. -/
def dbshell (cfg : Config) (db_name input_file output_file query : String) : TaskResult :=
  if input_file ≠ "" ∧ query ≠ "" then
    ([], some (PyError.valueError "Cannot specify both, `input_file` and `query` arguments"))
  else if output_file ≠ "" ∧ ¬(input_file ≠ "" ∨ query ≠ "") then
    ([], some (PyError.valueError "`output_file` argument requires `input_file` or `query` argument"))
  else if is_compose_included cfg "mysql" then
    ([Invocation.compose (dbshellCommand (dbshellMysqlTokens db_name) input_file output_file query) none], none)
  else if is_compose_included cfg "postgres" then
    ([Invocation.compose (dbshellCommand (dbshellPostgresTokens db_name) input_file output_file query) none], none)
  else
    ([], some (PyError.valueError "Unsupported database backend."))

/-! ## `destroy` (tasks.py lines 249-281) -/

/-- `destroy` from tasks.py.  `file_exists` models
`Path(import_db_file).absolute().is_file()`.  The initial
`down --remove-orphans` compose invocation happens before any argument
check; the import path then runs the detached `db` container, waits for
it to become healthy and stops it. -/
def destroy (file_exists : String → Bool) (volumes : Bool) (import_db_file : String) : TaskResult :=
  let downInv :=
    Invocation.compose ("down --remove-orphans " ++ (if volumes then "--volumes" else "")) none
  if import_db_file = "" then
    ([downInv], none)
  else if volumes = false then
    ([downInv],
     some (PyError.valueError "Cannot specify `--no-volumes` and `--import-db-file` arguments at the same time."))
  else if file_exists import_db_file = false then
    ([downInv], some (PyError.valueError ("File not found: " ++ import_db_file)))
  else
    ([downInv,
      Invocation.compose
        (String.intercalate " "
          ["run", "--rm", "--detach",
           "--volume=\x27" ++ import_db_file ++ ":/docker-entrypoint-initdb.d/dump.sql\x27",
           "--", "db"]) none,
      Invocation.awaitContainer, Invocation.dockerStop], none)

/-! ## `import_db` (tasks.py lines 489-533) -/

/-- The MySQL drop/create/grant/import tokens of `import_db`. -/
def importDbMysqlTokens (db_name : String) : List String :=
  let dn := if db_name = "" then "$MYSQL_DATABASE" else db_name
  ["mysql --user root --password=$MYSQL_ROOT_PASSWORD",
   "--execute=\"",
   "DROP DATABASE IF EXISTS " ++ dn ++ ";",
   "CREATE DATABASE " ++ dn ++ ";",
   if dn = "$MYSQL_DATABASE" then ""
   else "GRANT ALL PRIVILEGES ON " ++ dn ++ ".* TO $MYSQL_USER; FLUSH PRIVILEGES;",
   "\"",
   "&&",
   "mysql",
   "--database=" ++ dn,
   "--user=$MYSQL_USER",
   "--password=$MYSQL_PASSWORD"]

/-- The PostgreSQL drop/create/import tokens of `import_db`. -/
def importDbPostgresTokens (db_name : String) : List String :=
  let dn := if db_name = "" then "$POSTGRES_DB" else db_name
  ["dropdb --if-exists --user=$POSTGRES_USER " ++ dn ++ " &&",
   "createdb --user=$POSTGRES_USER " ++ dn ++ " &&",
   "psql --user=$POSTGRES_USER --dbname=" ++ dn]

/-- The database command string `import_db` hands to `docker_compose`. -/
def importDbCommand (dialect : List String) (input_file : String) : String :=
  String.intercalate " "
    (["exec -- db sh -c \x27"] ++ dialect ++ ["\x27", "< \x27" ++ input_file ++ "\x27"])

/-- The invocations `import_db` performs before it examines the backend:
stop nautobot/worker/beat, start the `db` service, wait for health. -/
def importDbPreInvs : List Invocation :=
  Invocation.compose "stop -- nautobot worker beat" none
    :: (startInvs "db" ++ awaitHealthyServiceInvs "db")

/-- `import_db` from tasks.py: container stop/start/health-wait first,
then the backend branch, then one `docker_compose` import invocation. -/
def import_db (cfg : Config) (db_name input_file : String) : TaskResult :=
  if is_compose_included cfg "mysql" then
    (importDbPreInvs ++
      [Invocation.compose (importDbCommand (importDbMysqlTokens db_name) input_file) none], none)
  else if is_compose_included cfg "postgres" then
    (importDbPreInvs ++
      [Invocation.compose (importDbCommand (importDbPostgresTokens db_name) input_file) none], none)
  else
    (importDbPreInvs, some (PyError.valueError "Unsupported database backend."))

/-! ## `backup_db` (tasks.py lines 543-580) -/

/-- The MySQL dump tokens of `backup_db`. -/
def backupDbMysqlTokens (db_name : String) (readable : Bool) : List String :=
  ["mysqldump", "--user=root", "--password=$MYSQL_ROOT_PASSWORD",
   if readable then "--skip-extended-insert" else "",
   if db_name = "" then "$MYSQL_DATABASE" else db_name]

/-- The PostgreSQL dump tokens of `backup_db`. -/
def backupDbPostgresTokens (db_name : String) (readable : Bool) : List String :=
  ["pg_dump", "--username=$POSTGRES_USER",
   "--dbname=" ++ (if db_name = "" then "$POSTGRES_DB" else db_name),
   if readable then "--inserts" else ""]

/-- The dump command string `backup_db` hands to `docker_compose`. -/
def backupDbCommand (dialect : List String) (output_file : String) : String :=
  String.intercalate " "
    (["exec -- db sh -c \x27"] ++ dialect ++ ["\x27", "> \x27" ++ output_file ++ "\x27"])

/-- The invocations `backup_db` performs before it examines the backend:
start the `db` service and wait for health. -/
def backupDbPreInvs : List Invocation :=
  startInvs "db" ++ awaitHealthyServiceInvs "db"

/-- `backup_db` from tasks.py: start/health-wait first, then the backend
branch, then one `docker_compose` dump invocation. -/
def backup_db (cfg : Config) (db_name output_file : String) (readable : Bool) : TaskResult :=
  if is_compose_included cfg "mysql" then
    (backupDbPreInvs ++
      [Invocation.compose (backupDbCommand (backupDbMysqlTokens db_name readable) output_file) none], none)
  else if is_compose_included cfg "postgres" then
    (backupDbPreInvs ++
      [Invocation.compose (backupDbCommand (backupDbPostgresTokens db_name readable) output_file) none], none)
  else
    (backupDbPreInvs, some (PyError.valueError "Unsupported database backend."))

/-! ## Migration 0003 (nautobot_ssot/migrations/0003_alter_synclogentry_textfields.py) -/

/-- A Django model field definition: the declared options of a field
together with the framework-level flags that determine its effective
default (`empty_strings_allowed` is true for string-based fields such as
`TextField`). -/
structure FieldDef where
  ftype : String
  maxLength : Option Nat
  blank : Bool
  nullable : Bool
  editable : Bool
  defaultVal : Option String
  emptyStringsAllowed : Bool
  deriving DecidableEq

/-- `models.TextField()` with every option left at its Django default:
no `max_length`, `blank=False`, `null=False`, `editable=True`, no
declared default, and empty strings allowed. -/
def textFieldBase : FieldDef :=
  { ftype := "TextField", maxLength := none, blank := false, nullable := false,
    editable := true, defaultVal := none, emptyStringsAllowed := true }

/-- `models.TextField(blank=True)`: the migrated `message` field. -/
def messageField : FieldDef :=
  { textFieldBase with blank := true }

/-- `models.TextField(blank=True, default="", editable=False)`: the
migrated `object_repr` field. -/
def objectReprField : FieldDef :=
  { textFieldBase with blank := true, defaultVal := some "", editable := false }

/-- The effective default of a field, following Django
`Field.get_default`: a declared default wins; otherwise a non-null field
that allows empty strings defaults to the empty string, and a field that
disallows empty strings (or is nullable) has default `None`. -/
def getDefault (f : FieldDef) : Option String :=
  match f.defaultVal with
  | some d => some d
  | none => if ¬ f.emptyStringsAllowed ∨ f.nullable then none else some ""

/-- A database schema: field definition per (model name, field name). -/
def Schema : Type := String → String → FieldDef

/-- `migrations.AlterField(model_name, name, field)`: replace one field
definition in the schema. -/
def alterField (s : Schema) (model_name fname : String) (fd : FieldDef) : Schema :=
  fun m n => if m = model_name ∧ n = fname then fd else s m n

/-- The two `AlterField` operations of migration 0003, applied in order. -/
def migration0003 (s : Schema) : Schema :=
  alterField (alterField s "synclogentry" "message" messageField)
    "synclogentry" "object_repr" objectReprField

/-- A schema that already matches migration 0003's target definition on
the `synclogentry` fields. -/
def targetSchema : Schema := fun m n =>
  if m = "synclogentry" ∧ n = "message" then messageField
  else if m = "synclogentry" ∧ n = "object_repr" then objectReprField
  else textFieldBase

/-! ## App descriptor (nautobot_ssot/__init__.py) -/

/-- A Python literal occurring in the app descriptor's settings. -/
inductive PyLit where
  | pstr (s : String)
  | pbool (b : Bool)
  | pint (n : Int)
  | plist (xs : List PyLit)
  | pdict (xs : List (String × PyLit))

/-- The class attributes of `NautobotSSOTAppConfig`. -/
structure AppDescriptor where
  name : String
  verbose_name : String
  version : String
  author : String
  description : String
  base_url : String
  required_settings : List String
  min_version : String
  max_version : String
  default_settings : List (String × PyLit)
  caching_config : List (String × PyLit)

/-- `NautobotSSOTAppConfig` from nautobot_ssot/__init__.py; `version` is
the package version read from `importlib.metadata` at import time. -/
def nautobotSSOTAppConfig (pkgVersion : String) : AppDescriptor :=
  { name := "nautobot_ssot",
    verbose_name := "Single Source of Truth",
    version := pkgVersion,
    author := "Network to Code, LLC",
    description := "Nautobot app that enables Single Source of Truth.  Allows users to aggregate distributed data sources and/or distribute Nautobot data to other data sources such as databases and SDN controllers.",
    base_url := "ssot",
    required_settings := [],
    min_version := "2.0.0",
    max_version := "2.9999",
    default_settings :=
      [("aci_apics", PyLit.plist []),
       ("aci_tag", PyLit.pstr ""),
       ("aci_tag_color", PyLit.pstr ""),
       ("aci_tag_up", PyLit.pstr ""),
       ("aci_tag_up_color", PyLit.pstr ""),
       ("aci_tag_down", PyLit.pstr ""),
       ("aci_tag_down_color", PyLit.pstr ""),
       ("aci_manufacturer_name", PyLit.pstr ""),
       ("aci_ignore_tenants", PyLit.plist []),
       ("aci_comments", PyLit.pstr ""),
       ("aci_site", PyLit.pstr ""),
       ("aristacv_apply_import_tag", PyLit.pbool false),
       ("aristacv_controller_site", PyLit.pstr ""),
       ("aristacv_create_controller", PyLit.pbool false),
       ("aristacv_cvaas_url", PyLit.pstr "www.arista.io:443"),
       ("aristacv_cvp_host", PyLit.pstr ""),
       ("aristacv_cvp_password", PyLit.pstr ""),
       ("aristacv_cvp_port", PyLit.pstr "443"),
       ("aristacv_cvp_token", PyLit.pstr ""),
       ("aristacv_cvp_user", PyLit.pstr ""),
       ("aristacv_delete_devices_on_sync", PyLit.pbool false),
       ("aristacv_from_cloudvision_default_device_role", PyLit.pstr ""),
       ("aristacv_from_cloudvision_default_device_role_color", PyLit.pstr ""),
       ("aristacv_from_cloudvision_default_site", PyLit.pstr ""),
       ("aristacv_hostname_patterns", PyLit.plist []),
       ("aristacv_import_active", PyLit.pbool false),
       ("aristacv_role_mappings", PyLit.pdict []),
       ("aristacv_site_mappings", PyLit.pdict []),
       ("aristacv_verify", PyLit.pbool true),
       ("device42_host", PyLit.pstr ""),
       ("device42_username", PyLit.pstr ""),
       ("device42_password", PyLit.pstr ""),
       ("device42_defaults", PyLit.pdict []),
       ("device42_delete_on_sync", PyLit.pbool false),
       ("device42_use_dns", PyLit.pbool true),
       ("device42_customer_is_facility", PyLit.pbool true),
       ("device42_facility_prepend", PyLit.pstr ""),
       ("device42_role_prepend", PyLit.pstr ""),
       ("device42_ignore_tag", PyLit.pstr ""),
       ("device42_hostname_mapping", PyLit.plist []),
       ("enable_aci", PyLit.pbool false),
       ("enable_aristacv", PyLit.pbool false),
       ("enable_device42", PyLit.pbool false),
       ("enable_infoblox", PyLit.pbool false),
       ("enable_ipfabric", PyLit.pbool false),
       ("enable_servicenow", PyLit.pbool false),
       ("hide_example_jobs", PyLit.pbool true),
       ("infoblox_default_status", PyLit.pstr ""),
       ("infoblox_enable_rfc1918_network_containers", PyLit.pbool false),
       ("infoblox_enable_sync_to_infoblox", PyLit.pbool false),
       ("infoblox_import_objects_ip_addresses", PyLit.pbool false),
       ("infoblox_import_objects_subnets", PyLit.pbool false),
       ("infoblox_import_objects_vlan_views", PyLit.pbool false),
       ("infoblox_import_objects_vlans", PyLit.pbool false),
       ("infoblox_import_subnets", PyLit.plist []),
       ("infoblox_password", PyLit.pstr ""),
       ("infoblox_url", PyLit.pstr ""),
       ("infoblox_username", PyLit.pstr ""),
       ("infoblox_verify_ssl", PyLit.pbool true),
       ("infoblox_wapi_version", PyLit.pstr ""),
       ("ipfabric_api_token", PyLit.pstr ""),
       ("ipfabric_host", PyLit.pstr ""),
       ("ipfabric_ssl_verify", PyLit.pbool true),
       ("ipfabric_timeout", PyLit.pint 15),
       ("ipfabric_nautobot_host", PyLit.pstr ""),
       ("servicenow_instance", PyLit.pstr ""),
       ("servicenow_password", PyLit.pstr ""),
       ("servicenow_username", PyLit.pstr "")],
    caching_config := [] }

/-- `NautobotSSOTAppConfig.ready`: the method body is exactly
`super().ready()`.  The base-class hook is an arbitrary transformer of
the app-loading state (any type `α`) that may also emit side effects,
modelled as a list of actions; the override forwards the state to it and
returns its result unchanged. -/
def appConfigReady {α : Type} (superReady : α → α × List String) (st : α) : α × List String :=
  superReady st

/-! ## Theorems -/

/-- The true and false literal lists of `is_truthy` share no element. -/
theorem trueStrs_disjoint_falseStrs : ∀ x ∈ trueStrs, x ∉ falseStrs := by decide

/-- C1: on a string argument, `is_truthy` returns `True` exactly when the
lowercased string is one of the six true literals, returns `False`
exactly when it is one of the six false literals, and raises `ValueError`
for every other string. -/
theorem is_truthy_string_spec (s : String) :
    (is_truthy (PyVal.pystr s) = Except.ok true ↔ strLower s ∈ trueStrs) ∧
    (is_truthy (PyVal.pystr s) = Except.ok false ↔ strLower s ∈ falseStrs) ∧
    ((∃ e, is_truthy (PyVal.pystr s) = Except.error e) ↔
      strLower s ∉ trueStrs ∧ strLower s ∉ falseStrs) := by
  by_cases h1 : strLower s ∈ trueStrs
  · have h2 : strLower s ∉ falseStrs := trueStrs_disjoint_falseStrs _ h1
    simp [is_truthy, pyStrOf, h1, h2]
  · by_cases h2 : strLower s ∈ falseStrs
    · simp [is_truthy, pyStrOf, h1, h2]
    · simp [is_truthy, pyStrOf, h1, h2]

/-- C8: `is_truthy` is not restricted to strings: a boolean is returned
unchanged, and a non-string non-boolean is first coerced with `str()` and
then matched like the resulting string, so `is_truthy(1)` is `True` and
`is_truthy(0)` is `False`. -/
theorem is_truthy_nonstring_spec :
    (∀ b : Bool, is_truthy (PyVal.pybool b) = Except.ok b) ∧
    (∀ n : Int,
      is_truthy (PyVal.pyint n) = is_truthy (PyVal.pystr (pyStrOf (PyVal.pyint n)))) ∧
    is_truthy (PyVal.pyint 1) = Except.ok true ∧
    is_truthy (PyVal.pyint 0) = Except.ok false :=
  ⟨fun _ => rfl, fun _ => rfl, rfl, rfl⟩

/-- C2 (counterexample): `destroy` with `volumes=False` and a non-empty
`import_db_file` does raise the mutually-exclusive-arguments
`ValueError`, but only after the `down --remove-orphans` docker compose
invocation has already been performed, so the error is not raised before
any docker compose invocation. -/
theorem destroy_guard_after_down :
    destroy (fun _ => true) false "dump.sql" =
      ([Invocation.compose "down --remove-orphans " none],
       some (PyError.valueError "Cannot specify `--no-volumes` and `--import-db-file` arguments at the same time.")) ∧
    ([Invocation.compose "down --remove-orphans " none] : List Invocation) ≠ [] :=
  ⟨rfl, by decide⟩

/-- C2 (amended): each validation guard raises its descriptive error
before the database command is invoked, though not always before every
external invocation: `destroy` with a non-empty `import_db_file` and
`volumes=False` raises after exactly the initial `down` compose
invocation; `import_db` with an unsupported backend raises after exactly
its stop/start/health-wait invocations and never reaches an import
command; `dbshell`'s mutually-exclusive-argument guard raises before any
invocation at all. -/
theorem failFast_amended :
    (∀ (fe : String → Bool) (f : String), f ≠ "" →
        destroy fe false f =
          ([Invocation.compose "down --remove-orphans " none],
           some (PyError.valueError "Cannot specify `--no-volumes` and `--import-db-file` arguments at the same time."))) ∧
    (∀ (cfg : Config) (dn i : String),
        is_compose_included cfg "mysql" = false →
        is_compose_included cfg "postgres" = false →
        import_db cfg dn i =
          (importDbPreInvs, some (PyError.valueError "Unsupported database backend."))) ∧
    (∀ (cfg : Config) (dn i o q : String), i ≠ "" → q ≠ "" →
        dbshell cfg dn i o q =
          ([], some (PyError.valueError "Cannot specify both, `input_file` and `query` arguments"))) := by
  refine ⟨?_, ?_, ?_⟩
  · intro fe f hf
    simp [destroy, hf]
  · intro cfg dn i hm hp
    simp [import_db, hm, hp]
  · intro cfg dn i o q hi hq
    simp [dbshell, hi, hq]

/-- Witness for the amended C2 statement at concrete inputs. -/
theorem failFast_amended_witness :
    destroy (fun _ => true) false "x.sql" =
      ([Invocation.compose "down --remove-orphans " none],
       some (PyError.valueError "Cannot specify `--no-volumes` and `--import-db-file` arguments at the same time.")) ∧
    import_db ⟨["docker-compose.base.yml"]⟩ "" "dump.sql" =
      (importDbPreInvs, some (PyError.valueError "Unsupported database backend.")) ∧
    dbshell defaultConfig "" "a.sql" "" "SELECT 1" =
      ([], some (PyError.valueError "Cannot specify both, `input_file` and `query` arguments")) :=
  ⟨failFast_amended.1 (fun _ => true) "x.sql" (by decide),
   failFast_amended.2.1 ⟨["docker-compose.base.yml"]⟩ "" "dump.sql" (by decide) (by decide),
   failFast_amended.2.2 defaultConfig "" "a.sql" "" "SELECT 1" (by decide) (by decide)⟩

/-- C3: `dbshell` rejects a non-empty `input_file` together with a
non-empty `query` with a `ValueError` and performs no external
invocation; `import_db` and `backup_db` accept no mutually exclusive
argument combination at all: their only possible error is the
unsupported-backend one. -/
theorem mutually_exclusive_args :
    (∀ (cfg : Config) (dn i o q : String), i ≠ "" → q ≠ "" →
        dbshell cfg dn i o q =
          ([], some (PyError.valueError "Cannot specify both, `input_file` and `query` arguments"))) ∧
    (∀ (cfg : Config) (dn i : String),
        (import_db cfg dn i).2 = none ∨
        (import_db cfg dn i).2 = some (PyError.valueError "Unsupported database backend.")) ∧
    (∀ (cfg : Config) (dn o : String) (r : Bool),
        (backup_db cfg dn o r).2 = none ∨
        (backup_db cfg dn o r).2 = some (PyError.valueError "Unsupported database backend.")) := by
  refine ⟨?_, ?_, ?_⟩
  · intro cfg dn i o q hi hq
    simp [dbshell, hi, hq]
  · intro cfg dn i
    by_cases hm : is_compose_included cfg "mysql" = true
    · left; simp [import_db, hm]
    · by_cases hp : is_compose_included cfg "postgres" = true
      · left; simp [import_db, hm, hp]
      · right; simp [import_db, hm, hp]
  · intro cfg dn o r
    by_cases hm : is_compose_included cfg "mysql" = true
    · left; simp [backup_db, hm]
    · by_cases hp : is_compose_included cfg "postgres" = true
      · left; simp [backup_db, hm, hp]
      · right; simp [backup_db, hm, hp]

/-- Witness for C3 at concrete inputs. -/
theorem mutually_exclusive_args_witness :
    dbshell defaultConfig "" "f.sql" "" "SELECT 1" =
      ([], some (PyError.valueError "Cannot specify both, `input_file` and `query` arguments")) :=
  mutually_exclusive_args.1 defaultConfig "" "f.sql" "" "SELECT 1" (by decide) (by decide)

/-- C4: when the compose files include neither the mysql nor the postgres
file, each of `dbshell`, `import_db` and `backup_db` raises
`ValueError("Unsupported database backend.")` and assembles no database
command; when one of the two files is present, the database command is
assembled with exactly that backend's dialect tokens: the mysql family if
the mysql file is included, the psql family if only the postgres file is. -/
theorem backend_branching :
    (∀ (cfg : Config) (dn i o q : String),
        is_compose_included cfg "mysql" = false →
        is_compose_included cfg "postgres" = false →
        ¬(i ≠ "" ∧ q ≠ "") → ¬(o ≠ "" ∧ ¬(i ≠ "" ∨ q ≠ "")) →
        dbshell cfg dn i o q = ([], some (PyError.valueError "Unsupported database backend."))) ∧
    (∀ (cfg : Config) (dn i o q : String),
        is_compose_included cfg "mysql" = true →
        ¬(i ≠ "" ∧ q ≠ "") → ¬(o ≠ "" ∧ ¬(i ≠ "" ∨ q ≠ "")) →
        dbshell cfg dn i o q =
          ([Invocation.compose (dbshellCommand (dbshellMysqlTokens dn) i o q) none], none)) ∧
    (∀ (cfg : Config) (dn i o q : String),
        is_compose_included cfg "mysql" = false →
        is_compose_included cfg "postgres" = true →
        ¬(i ≠ "" ∧ q ≠ "") → ¬(o ≠ "" ∧ ¬(i ≠ "" ∨ q ≠ "")) →
        dbshell cfg dn i o q =
          ([Invocation.compose (dbshellCommand (dbshellPostgresTokens dn) i o q) none], none)) ∧
    (∀ (cfg : Config) (dn i : String),
        is_compose_included cfg "mysql" = false →
        is_compose_included cfg "postgres" = false →
        import_db cfg dn i = (importDbPreInvs, some (PyError.valueError "Unsupported database backend."))) ∧
    (∀ (cfg : Config) (dn i : String),
        is_compose_included cfg "mysql" = true →
        import_db cfg dn i =
          (importDbPreInvs ++
            [Invocation.compose (importDbCommand (importDbMysqlTokens dn) i) none], none)) ∧
    (∀ (cfg : Config) (dn i : String),
        is_compose_included cfg "mysql" = false →
        is_compose_included cfg "postgres" = true →
        import_db cfg dn i =
          (importDbPreInvs ++
            [Invocation.compose (importDbCommand (importDbPostgresTokens dn) i) none], none)) ∧
    (∀ (cfg : Config) (dn o : String) (r : Bool),
        is_compose_included cfg "mysql" = false →
        is_compose_included cfg "postgres" = false →
        backup_db cfg dn o r = (backupDbPreInvs, some (PyError.valueError "Unsupported database backend."))) ∧
    (∀ (cfg : Config) (dn o : String) (r : Bool),
        is_compose_included cfg "mysql" = true →
        backup_db cfg dn o r =
          (backupDbPreInvs ++
            [Invocation.compose (backupDbCommand (backupDbMysqlTokens dn r) o) none], none)) ∧
    (∀ (cfg : Config) (dn o : String) (r : Bool),
        is_compose_included cfg "mysql" = false →
        is_compose_included cfg "postgres" = true →
        backup_db cfg dn o r =
          (backupDbPreInvs ++
            [Invocation.compose (backupDbCommand (backupDbPostgresTokens dn r) o) none], none)) := by
  refine ⟨?_, ?_, ?_, ?_, ?_, ?_, ?_, ?_, ?_⟩
  · intro cfg dn i o q hm hp hg1 hg2
    unfold dbshell
    rw [if_neg hg1, if_neg hg2]
    simp [hm, hp]
  · intro cfg dn i o q hm hg1 hg2
    unfold dbshell
    rw [if_neg hg1, if_neg hg2]
    simp [hm]
  · intro cfg dn i o q hm hp hg1 hg2
    unfold dbshell
    rw [if_neg hg1, if_neg hg2]
    simp [hm, hp]
  · intro cfg dn i hm hp
    simp [import_db, hm, hp]
  · intro cfg dn i hm
    simp [import_db, hm]
  · intro cfg dn i hm hp
    simp [import_db, hm, hp]
  · intro cfg dn o r hm hp
    simp [backup_db, hm, hp]
  · intro cfg dn o r hm
    simp [backup_db, hm]
  · intro cfg dn o r hm hp
    simp [backup_db, hm, hp]

/-- Witness for C4 at concrete configurations: no database file, the
mysql file, and the default (postgres) files. -/
theorem backend_branching_witness :
    dbshell ⟨["docker-compose.base.yml"]⟩ "" "" "" "" =
      ([], some (PyError.valueError "Unsupported database backend.")) ∧
    dbshell ⟨["docker-compose.mysql.yml"]⟩ "" "" "" "" =
      ([Invocation.compose (dbshellCommand (dbshellMysqlTokens "") "" "" "") none], none) ∧
    dbshell defaultConfig "" "" "" "" =
      ([Invocation.compose (dbshellCommand (dbshellPostgresTokens "") "" "" "") none], none) ∧
    backup_db ⟨["docker-compose.mysql.yml"]⟩ "" "dump.sql" true =
      (backupDbPreInvs ++
        [Invocation.compose (backupDbCommand (backupDbMysqlTokens "" true) "dump.sql") none], none) :=
  ⟨backend_branching.1 ⟨["docker-compose.base.yml"]⟩ "" "" "" ""
      (by decide) (by decide) (by decide) (by decide),
   backend_branching.2.1 ⟨["docker-compose.mysql.yml"]⟩ "" "" "" ""
      (by decide) (by decide) (by decide),
   backend_branching.2.2.1 defaultConfig "" "" "" ""
      (by decide) (by decide) (by decide) (by decide),
   backend_branching.2.2.2.2.2.2.2.1 ⟨["docker-compose.mysql.yml"]⟩ "" "dump.sql" true
      (by decide)⟩

/-- C5: after migration 0003, `message` and `object_repr` on
`synclogentry` are both `TextField`s with no length limit whose effective
default is the empty string, and `object_repr` is non-editable. -/
theorem migration0003_fields (s : Schema) :
    ((migration0003 s) "synclogentry" "message").ftype = "TextField" ∧
    ((migration0003 s) "synclogentry" "message").maxLength = none ∧
    getDefault ((migration0003 s) "synclogentry" "message") = some "" ∧
    ((migration0003 s) "synclogentry" "object_repr").ftype = "TextField" ∧
    ((migration0003 s) "synclogentry" "object_repr").maxLength = none ∧
    getDefault ((migration0003 s) "synclogentry" "object_repr") = some "" ∧
    ((migration0003 s) "synclogentry" "object_repr").editable = false :=
  ⟨rfl, rfl, rfl, rfl, rfl, rfl, rfl⟩

/-- C6: migration 0003 is idempotent: applied to a schema whose
`synclogentry` fields already match the target definitions it changes
nothing. -/
theorem migration0003_idempotent (s : Schema)
    (h1 : s "synclogentry" "message" = messageField)
    (h2 : s "synclogentry" "object_repr" = objectReprField) :
    migration0003 s = s := by
  funext m n
  simp only [migration0003, alterField]
  by_cases hr : m = "synclogentry" ∧ n = "object_repr"
  · obtain ⟨hm, hn⟩ := hr
    subst hm; subst hn
    simp [h2]
  · simp only [if_neg hr]
    by_cases hmsg : m = "synclogentry" ∧ n = "message"
    · obtain ⟨hm, hn⟩ := hmsg
      subst hm; subst hn
      simp [h1]
    · simp only [if_neg hmsg]

/-- Witness for C6 on a concrete schema matching the target. -/
theorem migration0003_idempotent_witness : migration0003 targetSchema = targetSchema :=
  migration0003_idempotent targetSchema rfl rfl

/-- C7: `NautobotSSOTAppConfig.ready` only delegates to the base class's
`ready`: for every base-class hook and every app-loading state, the
override returns exactly the base hook's resulting state and effects. -/
theorem appConfigReady_delegates {α : Type} (superReady : α → α × List String) (st : α) :
    appConfigReady superReady st = superReady st := rfl

/-- C9: `dbshell` with a non-empty `output_file` but empty `input_file`
and `query` raises a `ValueError` and performs no external invocation. -/
theorem dbshell_output_requires_input (cfg : Config) (dn o : String) (ho : o ≠ "") :
    dbshell cfg dn "" o "" =
      ([], some (PyError.valueError "`output_file` argument requires `input_file` or `query` argument")) := by
  simp [dbshell, ho]

/-- Witness for C9 at a concrete output file. -/
theorem dbshell_output_requires_input_witness :
    dbshell defaultConfig "" "" "out.sql" "" =
      ([], some (PyError.valueError "`output_file` argument requires `input_file` or `query` argument")) :=
  dbshell_output_requires_input defaultConfig "" "out.sql" (by decide)

/-- C10: when both the mysql and the postgres compose files are included,
each of `dbshell`, `import_db` and `backup_db` assembles the MySQL
dialect command: the mysql membership check is evaluated first, so the
postgres branch is never taken. -/
theorem mysql_branch_precedence :
    (∀ (cfg : Config) (dn i o q : String),
        is_compose_included cfg "mysql" = true →
        is_compose_included cfg "postgres" = true →
        ¬(i ≠ "" ∧ q ≠ "") → ¬(o ≠ "" ∧ ¬(i ≠ "" ∨ q ≠ "")) →
        dbshell cfg dn i o q =
          ([Invocation.compose (dbshellCommand (dbshellMysqlTokens dn) i o q) none], none)) ∧
    (∀ (cfg : Config) (dn i : String),
        is_compose_included cfg "mysql" = true →
        is_compose_included cfg "postgres" = true →
        import_db cfg dn i =
          (importDbPreInvs ++
            [Invocation.compose (importDbCommand (importDbMysqlTokens dn) i) none], none)) ∧
    (∀ (cfg : Config) (dn o : String) (r : Bool),
        is_compose_included cfg "mysql" = true →
        is_compose_included cfg "postgres" = true →
        backup_db cfg dn o r =
          (backupDbPreInvs ++
            [Invocation.compose (backupDbCommand (backupDbMysqlTokens dn r) o) none], none)) := by
  refine ⟨?_, ?_, ?_⟩
  · intro cfg dn i o q hm _ hg1 hg2
    unfold dbshell
    rw [if_neg hg1, if_neg hg2]
    simp [hm]
  · intro cfg dn i hm _
    simp [import_db, hm]
  · intro cfg dn o r hm _
    simp [backup_db, hm]

/-- Witness for C10 on a configuration with both database files. -/
theorem mysql_branch_precedence_witness :
    dbshell ⟨["docker-compose.mysql.yml", "docker-compose.postgres.yml"]⟩ "" "" "" "" =
      ([Invocation.compose (dbshellCommand (dbshellMysqlTokens "") "" "" "") none], none) ∧
    import_db ⟨["docker-compose.mysql.yml", "docker-compose.postgres.yml"]⟩ "" "dump.sql" =
      (importDbPreInvs ++
        [Invocation.compose (importDbCommand (importDbMysqlTokens "") "dump.sql") none], none) ∧
    backup_db ⟨["docker-compose.mysql.yml", "docker-compose.postgres.yml"]⟩ "" "dump.sql" true =
      (backupDbPreInvs ++
        [Invocation.compose (backupDbCommand (backupDbMysqlTokens "" true) "dump.sql") none], none) :=
  ⟨mysql_branch_precedence.1 ⟨["docker-compose.mysql.yml", "docker-compose.postgres.yml"]⟩
      "" "" "" "" (by decide) (by decide) (by decide) (by decide),
   mysql_branch_precedence.2.1 ⟨["docker-compose.mysql.yml", "docker-compose.postgres.yml"]⟩
      "" "dump.sql" (by decide) (by decide),
   mysql_branch_precedence.2.2 ⟨["docker-compose.mysql.yml", "docker-compose.postgres.yml"]⟩
      "" "dump.sql" true (by decide) (by decide)⟩

end NautobotSSOT
